import Mathlib

/-!
Verification of the vue-intent repository's intent state machine and
observer-subscription contract.

The repository's intent objects (the `createIntent` factory in
`examples/basic/App.vue` and the identical `createMockIntent` factories in
the test suites) are embedded below: a mutable `state` string drawn from a
seven-value enumeration, a mutable `subscribers` array of callbacks, eight
transition operations that each assign the target state and then run
`subscribers.forEach(cb => cb(state))`, and a `subscribe` that pushes the
callback and returns `() => { const i = subscribers.indexOf(callback);
if (i > -1) subscribers.splice(i, 1) }`.

Callback functions are modelled by identities (`Nat`): JavaScript array
membership (`indexOf`) compares function objects by identity, so subscribing
the same function twice pushes the same identity twice.  A behaviour map
assigns each identity what its body does when invoked; the behaviours needed
by the claims are "record the received state" and "first run the unsubscribe
handle for one's own callback, then record".  `forEach` is embedded with its
ECMAScript semantics: the length is read once at the start, indices are
visited in increasing order against the live (possibly spliced) array, and
an index that no longer exists is skipped.
-/

/-- The seven-value state enumeration
`{idle, started, in-progress, waiting, blocked, completed, failed}`. -/
inductive IntentState : Type
  | idle
  | started
  | inProgress
  | waiting
  | blocked
  | completed
  | failed
  deriving DecidableEq, Repr

/-- The eight transition operations of an intent. -/
inductive Op : Type
  | start
  | progress
  | wait
  | block
  | complete
  | fail
  | reset
  | replay
  deriving DecidableEq, Repr

/-- The state each operation assigns (`state = 'started'` in `start`, …,
`state = 'idle'` in both `reset` and `replay`). -/
def targetState : Op → IntentState
  | Op.start => IntentState.started
  | Op.progress => IntentState.inProgress
  | Op.wait => IntentState.waiting
  | Op.block => IntentState.blocked
  | Op.complete => IntentState.completed
  | Op.fail => IntentState.failed
  | Op.reset => IntentState.idle
  | Op.replay => IntentState.idle

/-- What a registered callback does when invoked with the new state. -/
inductive ObsBehavior : Type
  | record
  | selfUnsub
  deriving DecidableEq, Repr

/-- The mutable pieces of one intent object: the current `state` and the
`subscribers` array, listing callback identities in push (registration)
order. -/
structure MockIntent : Type where
  state : IntentState
  subscribers : List Nat
  deriving DecidableEq, Repr

/-- Subscription, `subscribe(callback)`: `subscribers.push(callback)`. -/
def subscribeCb (m : MockIntent) (cb : Nat) : MockIntent :=
  { m with subscribers := m.subscribers ++ [cb] }

/-- The body of the unsubscribe closure returned by `subscribe`:
`const index = subscribers.indexOf(callback);
if (index > -1) subscribers.splice(index, 1)`. -/
def unsubAction (subs : List Nat) (cb : Nat) : List Nat :=
  match subs.findIdx? (fun x => x == cb) with
  | some i => subs.eraseIdx i
  | none => subs

/-- Invoking callback `cb` with new state `s`: it either records `(cb, s)`
into the notification log, or first splices itself out of the live
subscriber array and then records. -/
def invokeCb (beh : Nat → ObsBehavior) (s : IntentState) (cb : Nat)
    (subs : List Nat) (log : List (Nat × IntentState)) :
    List Nat × List (Nat × IntentState) :=
  match beh cb with
  | ObsBehavior.record => (subs, log ++ [(cb, s)])
  | ObsBehavior.selfUnsub => (unsubAction subs cb, log ++ [(cb, s)])

/-- Fan-out, `subscribers.forEach(cb => cb(state))`, with ECMAScript
semantics: `n` iterations remain, `k` is the current index, the array `subs` is live.  An
index past the current length is skipped (`HasProperty` fails). -/
def forEachFrom (beh : Nat → ObsBehavior) (s : IntentState) :
    Nat → Nat → List Nat → List (Nat × IntentState) →
    List Nat × List (Nat × IntentState)
  | 0, _, subs, log => (subs, log)
  | n + 1, k, subs, log =>
    match subs.get? k with
    | none => forEachFrom beh s n (k + 1) subs log
    | some cb =>
      let p := invokeCb beh s cb subs log
      forEachFrom beh s n (k + 1) p.1 p.2

/-- One whole transition operation: assign the target state, then fan out
over the subscriber array (length read once, at the start).  Returns the
intent afterwards and the log of notifications delivered. -/
def applyOp (beh : Nat → ObsBehavior) (op : Op) (m : MockIntent) :
    MockIntent × List (Nat × IntentState) :=
  let s := targetState op
  let p := forEachFrom beh s m.subscribers.length 0 m.subscribers []
  ({ state := s, subscribers := p.1 }, p.2)

/-- Predicate `isActive`: `state === 'started' || state === 'in-progress'`. -/
def isActiveFn (s : IntentState) : Bool :=
  s == IntentState.started || s == IntentState.inProgress

/-- Predicate `isCompleted`: `state === 'completed'`. -/
def isCompletedFn (s : IntentState) : Bool :=
  s == IntentState.completed

/-- Predicate `isFailed`: `state === 'failed'`. -/
def isFailedFn (s : IntentState) : Bool :=
  s == IntentState.failed

/-- Predicate `isBlocked`: `state === 'blocked'`. -/
def isBlockedFn (s : IntentState) : Bool :=
  s == IntentState.blocked

/-- Predicate `isWaiting`: `state === 'waiting'`. -/
def isWaitingFn (s : IntentState) : Bool :=
  s == IntentState.waiting

/-!
Embedding of `useIntentNavigation` (src/composables/useIntentNavigation.ts).
The composable keeps two refs, `isActive` and `protectNavigation`, seeded
from the intent at setup and re-read by `sync()` on every subscription
notification.  `protectionActive` is the computed
`protectNavigation.value && isActive.value` and `canLeave` its negation.
The mock intents give `protectNavigation()` as a constant.
-/

/-- An intent as seen by `useIntentNavigation`: current state plus the
constant answer of its `protectNavigation()`. -/
structure NavMockIntent : Type where
  state : IntentState
  protect : Bool
  deriving DecidableEq, Repr

/-- The two refs of the composable. -/
structure NavRefs : Type where
  isActiveRef : Bool
  protectRef : Bool
  deriving DecidableEq, Repr

/-- The composable's `sync()`: `isActive.value = intent.isActive();
protectNavigation.value = intent.protectNavigation()`. -/
def navSync (m : NavMockIntent) : NavRefs :=
  { isActiveRef := isActiveFn m.state, protectRef := m.protect }

/-- One transition on the intent followed by the subscribed `sync()`
notification. -/
def navStep (p : NavMockIntent × NavRefs) (op : Op) :
    NavMockIntent × NavRefs :=
  let m := { p.1 with state := targetState op }
  (m, navSync m)

/-- Setup (refs seeded from the intent) followed by a sequence of
transitions, each notifying the composable. -/
def navRun (m : NavMockIntent) (ops : List Op) : NavMockIntent × NavRefs :=
  ops.foldl navStep (m, navSync m)

/-- Computed `protectionActive`: `protectNavigation.value && isActive.value`. -/
def protectionActiveFn (r : NavRefs) : Bool :=
  r.protectRef && r.isActiveRef

/-- Computed `canLeave`: `!protectionActive.value`. -/
def canLeaveFn (r : NavRefs) : Bool :=
  !protectionActiveFn r

/-!
Embedding of `useIntentState` (src/composables/useIntentState.ts).  The
tracker holds `currentState`, `previous`, the `transitions` history, and the
`duration` counter.  Its `updateState(newState)` does nothing when
`newState === currentState.value`; otherwise it shifts `previous`, pushes
the new state onto `transitions`, and zeroes `duration` (the wall-clock
`stateStartTime` and the 100 ms interval are real time and are not part of
the synchronous notification path modelled here).
-/

/-- The tracked refs of `useIntentState`. -/
structure StateTracker : Type where
  currentState : IntentState
  previous : Option IntentState
  transitions : List IntentState
  duration : Nat
  deriving DecidableEq, Repr

/-- Setup: `currentState = ref(intent.state())`, `previous = ref(null)`,
`transitions = ref([intent.state()])`, `duration = ref(0)`. -/
def trackerInit (s0 : IntentState) : StateTracker :=
  { currentState := s0, previous := none, transitions := [s0], duration := 0 }

/-- The `updateState(newState)` handler of `useIntentState`. -/
def updateTracker (t : StateTracker) (newState : IntentState) : StateTracker :=
  if newState ≠ t.currentState then
    { currentState := newState
      previous := some t.currentState
      transitions := t.transitions ++ [newState]
      duration := 0 }
  else t

/-- The tracker after setup in initial state `s0` and a sequence of
subscription notifications. -/
def trackerRun (s0 : IntentState) (notes : List IntentState) : StateTracker :=
  notes.foldl updateTracker (trackerInit s0)

/-!
Embedding of the `v-intent` directive (`updateElement` and the `mounted`
hook).  The element carries the pieces the hook touches: the `disabled`
property (guarded by `'disabled' in el`), attributes, the class list, the
inline `display` style, and the two expando fields `_intentOriginalDisplay`
and `_intentUnsubscribe`.
-/

/-- The slice of a DOM element the directive reads and writes. -/
structure DirectiveEl : Type where
  tagHasDisabled : Bool
  disabled : Bool
  attrs : List (String × String)
  classes : List String
  styleDisplay : String
  intentOriginalDisplay : Option String
  intentUnsubscribe : Option Nat
  deriving DecidableEq, Repr

/-- The attribute name aria-disabled. -/
def ariaDisabledKey : String := "aria-disabled"

/-- The attribute name aria-busy. -/
def ariaBusyKey : String := "aria-busy"

/-- The attribute name aria-hidden. -/
def ariaHiddenKey : String := "aria-hidden"

/-- The class name intent-disabled. -/
def intentDisabledClass : String := "intent-disabled"

/-- The class name intent-loading. -/
def intentLoadingClass : String := "intent-loading"

/-- The class name intent-active. -/
def intentActiveClass : String := "intent-active"

/-- The display value none. -/
def displayNone : String := "none"

/-- The text true. -/
def trueStr : String := "true"

/-- The text false. -/
def falseStr : String := "false"

/-- The empty string. -/
def emptyStr : String := ""

/-- Attribute write `el.setAttribute(name, value)`: overwrite or append. -/
def setAttr (attrs : List (String × String)) (name value : String) :
    List (String × String) :=
  if attrs.any (fun p => p.1 == name) then
    attrs.map (fun p => if p.1 == name then (name, value) else p)
  else
    attrs ++ [(name, value)]

/-- Attribute removal `el.removeAttribute(name)`. -/
def removeAttr (attrs : List (String × String)) (name : String) :
    List (String × String) :=
  attrs.filter (fun p => p.1 != name)

/-- Class addition `el.classList.add(c)`: a DOMTokenList holds no
duplicates. -/
def classAdd (classes : List String) (c : String) : List String :=
  if classes.contains c then classes else classes ++ [c]

/-- Class removal `el.classList.remove(c)`. -/
def classRemove (classes : List String) (c : String) : List String :=
  classes.filter (fun x => x != c)

/-- An intent as read by the directive: `allowed()` is the constant
`config.allowed !== false` of the mock factory, `isActive()` is derived
from the current state. -/
structure DirectiveIntent : Type where
  state : IntentState
  allowedCfg : Bool
  deriving DecidableEq, Repr

/-- The directive argument: `binding.arg` as
`'disabled' | 'loading' | 'hidden' | undefined`. -/
inductive IntentModifier : Type
  | disabled
  | loading
  | hidden
  deriving DecidableEq, Repr

/-- The text of a boolean under JavaScript coercion, `String(b)`. -/
def boolStr (b : Bool) : String :=
  if b then trueStr else falseStr

/-- The `updateElement(el, binding)` helper of the `v-intent` directive.
Returns at once when `binding.value` is absent. -/
def updateElement (el : DirectiveEl) (value : Option DirectiveIntent)
    (arg : Option IntentModifier) : DirectiveEl :=
  match value with
  | none => el
  | some intent =>
    let isAllowed := intent.allowedCfg
    let isActive := isActiveFn intent.state
    match arg with
    | some IntentModifier.disabled =>
      let el :=
        if el.tagHasDisabled then
          { el with disabled := !isAllowed || isActive }
        else el
      let v := boolStr (!isAllowed || isActive)
      let el := { el with attrs := setAttr el.attrs ariaDisabledKey v }
      if !isAllowed || isActive then
        { el with classes := classAdd el.classes intentDisabledClass }
      else
        { el with classes := classRemove el.classes intentDisabledClass }
    | some IntentModifier.loading =>
      if isActive then
        { el with classes := classAdd el.classes intentLoadingClass,
                  attrs := setAttr el.attrs ariaBusyKey trueStr }
      else
        { el with classes := classRemove el.classes intentLoadingClass,
                  attrs := setAttr el.attrs ariaBusyKey falseStr }
    | some IntentModifier.hidden =>
      if !isAllowed then
        let el :=
          if el.intentOriginalDisplay = none ∨
              el.intentOriginalDisplay = some emptyStr then
            { el with intentOriginalDisplay := some el.styleDisplay }
          else el
        { el with styleDisplay := displayNone,
                  attrs := setAttr el.attrs ariaHiddenKey trueStr }
      else
        let restored :=
          match el.intentOriginalDisplay with
          | some d => d
          | none => emptyStr
        { el with styleDisplay := restored,
                  attrs := removeAttr el.attrs ariaHiddenKey }
    | none =>
      let el :=
        if el.tagHasDisabled then
          { el with disabled := !isAllowed }
        else el
      let v := boolStr (!isAllowed)
      let el := { el with attrs := setAttr el.attrs ariaDisabledKey v }
      let el :=
        if !isAllowed then
          { el with classes := classAdd el.classes intentDisabledClass }
        else
          { el with classes := classRemove el.classes intentDisabledClass }
      if isActive then
        { el with classes := classAdd el.classes intentActiveClass }
      else
        { el with classes := classRemove el.classes intentActiveClass }

/-- The directive's `mounted` hook: returns at once when `binding.value` is
absent; otherwise runs the initial `updateElement` and stores the
subscription's unsubscribe handle. -/
def vIntentMounted (el : DirectiveEl) (value : Option DirectiveIntent)
    (arg : Option IntentModifier) : DirectiveEl :=
  match value with
  | none => el
  | some intent =>
    let el := updateElement el (some intent) arg
    { el with intentUnsubscribe := some 0 }

theorem forEachFrom_record (beh : Nat → ObsBehavior) (s : IntentState) :
    ∀ (n k : Nat) (subs : List Nat) (log : List (Nat × IntentState)),
      (∀ cb ∈ (subs.drop k).take n, beh cb = ObsBehavior.record) →
      forEachFrom beh s n k subs log =
        (subs, log ++ ((subs.drop k).take n).map (fun cb => (cb, s))) := by
  intro n
  induction n with
  | zero =>
    intro k subs log _
    simp [forEachFrom]
  | succ n ih =>
    intro k subs log h
    rcases Nat.lt_or_ge k subs.length with hk | hk
    · have hget : subs.get? k = some (subs.get ⟨k, hk⟩) := List.get?_eq_get hk
      set cb := subs.get ⟨k, hk⟩ with hcbdef
      have hdrop : subs.drop k = cb :: subs.drop (k + 1) :=
        List.drop_eq_getElem_cons hk
      have hcb : beh cb = ObsBehavior.record := by
        apply h
        rw [hdrop]
        simp
      have hrest : ∀ c ∈ (subs.drop (k + 1)).take n, beh c = ObsBehavior.record := by
        intro c hc
        apply h
        rw [hdrop]
        simp [hc]
      simp only [forEachFrom, hget]
      simp only [invokeCb, hcb]
      rw [ih (k + 1) subs (log ++ [(cb, s)]) hrest]
      rw [hdrop]
      simp
    · have hget : subs.get? k = none := by
        rw [List.get?_eq_getElem?]
        exact List.getElem?_eq_none hk
      have hd : subs.drop k = [] := List.drop_eq_nil_of_le hk
      have hd1 : subs.drop (k + 1) = [] :=
        List.drop_eq_nil_of_le (le_trans hk (Nat.le_succ k))
      simp only [forEachFrom, hget]
      rw [ih (k + 1) subs log (by simp [hd1])]
      simp [hd, hd1]

theorem forEachFrom_add (beh : Nat → ObsBehavior) (s : IntentState) :
    ∀ (a b k : Nat) (subs : List Nat) (log : List (Nat × IntentState)),
      forEachFrom beh s (a + b) k subs log =
        forEachFrom beh s b (k + a)
          (forEachFrom beh s a k subs log).1
          (forEachFrom beh s a k subs log).2 := by
  intro a
  induction a with
  | zero =>
    intro b k subs log
    simp [forEachFrom]
  | succ a ih =>
    intro b k subs log
    have harr : a + 1 + b = (a + b) + 1 := by omega
    rw [harr]
    cases hget : subs.get? k with
    | none =>
      simp only [forEachFrom, hget]
      rw [ih b (k + 1) subs log]
      congr 1
      omega
    | some cb =>
      simp only [forEachFrom, hget]
      rw [ih b (k + 1) (invokeCb beh s cb subs log).1 (invokeCb beh s cb subs log).2]
      congr 1
      omega

theorem unsubAction_eq_erase (subs : List Nat) (cb : Nat) :
    unsubAction subs cb = subs.erase cb := by
  rw [unsubAction]
  induction subs with
  | nil => rfl
  | cons x xs ih =>
    by_cases hx : x = cb
    · subst hx
      simp [List.findIdx?_cons, List.erase_cons_head]
    · have hxb : (x == cb) = false := by simp [hx]
      rw [List.erase_cons_tail (by simp [hx])]
      rw [List.findIdx?_cons, hxb]
      simp only [Bool.false_eq_true, if_false, List.findIdx?_succ]
      cases h : xs.findIdx? (fun y => y == cb) with
      | none =>
        rw [h] at ih
        simp only [Option.map_none']
        rw [← ih]
      | some i =>
        rw [h] at ih
        simp only [Option.map_some']
        rw [List.eraseIdx_cons_succ, ← ih]

theorem applyOp_record (beh : Nat → ObsBehavior) (op : Op) (m : MockIntent)
    (h : ∀ cb ∈ m.subscribers, beh cb = ObsBehavior.record) :
    applyOp beh op m =
      ({ state := targetState op, subscribers := m.subscribers },
        m.subscribers.map (fun cb => (cb, targetState op))) := by
  rw [applyOp]
  rw [forEachFrom_record beh (targetState op) m.subscribers.length 0 m.subscribers []
    (by simpa using h)]
  simp

def recBeh : Nat → ObsBehavior := fun _ => ObsBehavior.record

def behSelf0 : Nat → ObsBehavior :=
  fun n => if n = 0 then ObsBehavior.selfUnsub else ObsBehavior.record

theorem navFold_inv (ops : List Op) :
    ∀ p : NavMockIntent × NavRefs, p.2 = navSync p.1 →
      (ops.foldl navStep p).2 = navSync (ops.foldl navStep p).1 ∧
      (ops.foldl navStep p).1.protect = p.1.protect := by
  induction ops with
  | nil => intro p h; exact ⟨h, rfl⟩
  | cons op ops ih =>
    intro p _
    simp only [List.foldl_cons]
    exact ih (navStep p op) rfl

theorem trackerFold_inv (notes : List IntentState) :
    ∀ t : StateTracker,
      List.Chain' (fun a b => a ≠ b) t.transitions →
      t.transitions.getLast? = some t.currentState →
      List.Chain' (fun a b => a ≠ b) (notes.foldl updateTracker t).transitions ∧
      (notes.foldl updateTracker t).transitions.getLast? =
        some (notes.foldl updateTracker t).currentState := by
  induction notes with
  | nil => intro t h1 h2; exact ⟨h1, h2⟩
  | cons note notes ih =>
    intro t h1 h2
    simp only [List.foldl_cons]
    apply ih
    · rw [updateTracker]
      split
      · rename_i hne
        rw [List.chain'_append]
        refine ⟨h1, List.chain'_singleton _, ?_⟩
        intro x hx y hy
        rw [h2] at hx
        simp only [Option.mem_def, Option.some.injEq] at hx
        simp only [List.head?_cons, Option.mem_def, Option.some.injEq] at hy
        subst hx
        subst hy
        exact fun hc => hne hc.symm
      · exact h1
    · rw [updateTracker]
      split
      · simp [List.getLast?_concat]
      · exact h2

theorem count_pair_map (l : List Nat) (t : IntentState) (x : Nat) :
    (l.map (fun c => (c, t))).count (x, t) = l.count x := by
  induction l with
  | nil => rfl
  | cons y ys ih =>
    simp only [List.map_cons, List.count_cons, ih]
    by_cases h : y = x
    · subst h
      simp
    · simp [h, Prod.ext_iff]

/-- C1: for every state S of the seven-value enumeration, every operation O
of the eight, and any subscriber configuration, invoking O is a total
function (the embedding never fails) and leaves the stored state at exactly
O's documented target. -/
theorem C1_total_transition_coverage :
    (∀ (beh : Nat → ObsBehavior) (m : MockIntent) (op : Op),
        ((applyOp beh op m).1).state = targetState op) ∧
    targetState Op.start = IntentState.started ∧
    targetState Op.progress = IntentState.inProgress ∧
    targetState Op.wait = IntentState.waiting ∧
    targetState Op.block = IntentState.blocked ∧
    targetState Op.complete = IntentState.completed ∧
    targetState Op.fail = IntentState.failed ∧
    targetState Op.reset = IntentState.idle ∧
    targetState Op.replay = IntentState.idle := by
  refine ⟨fun beh m op => rfl, ?_⟩
  repeat constructor

/-- C2: with any number of registered observers none of which mutates the
intent, a transition updates the stored state to the target, leaves the
registration list unchanged, and notifies each observer exactly once, in
registration order, with the post-transition state (the log equals the
subscriber list mapped to the new state; with zero observers it is empty). -/
theorem C2_fanout_each_observer_once (beh : Nat → ObsBehavior) (op : Op)
    (m : MockIntent)
    (h : ∀ cb ∈ m.subscribers, beh cb = ObsBehavior.record) :
    (applyOp beh op m).1.state = targetState op ∧
    (applyOp beh op m).1.subscribers = m.subscribers ∧
    (applyOp beh op m).2 = m.subscribers.map (fun cb => (cb, targetState op)) := by
  rw [applyOp_record beh op m h]
  exact ⟨rfl, rfl, rfl⟩

/-- Witness for C2 at three observers. -/
theorem C2_fanout_each_observer_once_witness :
    (applyOp recBeh Op.start { state := IntentState.idle, subscribers := [4, 7, 9] }).2 =
      [(4, IntentState.started), (7, IntentState.started), (9, IntentState.started)] := by
  rw [(C2_fanout_each_observer_once recBeh Op.start
    { state := IntentState.idle, subscribers := [4, 7, 9] } (fun cb _ => rfl)).2.2]
  rfl

/-- C7: `reset()` and `replay()` are the same operation observably: from any
intent (any state, any subscribers, any observer behaviours) they produce
identical post-states and identical notification logs, and both set the
state to `idle`. -/
theorem C7_reset_replay_equivalence :
    ∀ (beh : Nat → ObsBehavior) (m : MockIntent),
      applyOp beh Op.reset m = applyOp beh Op.replay m ∧
      (applyOp beh Op.reset m).1.state = IntentState.idle :=
  fun _ _ => ⟨rfl, rfl⟩

/-- C8: the derived predicates satisfy the documented truth table, at most
one of the five holds in any state, and none holds in `idle`. -/
theorem C8_derived_predicates_truth_table :
    ∀ s : IntentState,
      ((isActiveFn s = true) ↔ (s = IntentState.started ∨ s = IntentState.inProgress)) ∧
      ((isCompletedFn s = true) ↔ s = IntentState.completed) ∧
      ((isFailedFn s = true) ↔ s = IntentState.failed) ∧
      ((isBlockedFn s = true) ↔ s = IntentState.blocked) ∧
      ((isWaitingFn s = true) ↔ s = IntentState.waiting) ∧
      ((if isActiveFn s then 1 else 0) + (if isCompletedFn s then 1 else 0) +
        (if isFailedFn s then 1 else 0) + (if isBlockedFn s then 1 else 0) +
        (if isWaitingFn s then 1 else 0) ≤ 1) ∧
      (isActiveFn IntentState.idle = false ∧ isCompletedFn IntentState.idle = false ∧
        isFailedFn IntentState.idle = false ∧ isBlockedFn IntentState.idle = false ∧
        isWaitingFn IntentState.idle = false) := by
  intro s
  cases s <;> decide

/-- C6: `protectionActive` equals `protectNavigation() && isActive()` after
any transition sequence, `canLeave` is always its negation, and concretely
with a constantly-true protection policy `progress()` turns protection on
and a subsequent `complete()` turns it off. -/
theorem C6_navigation_predicates :
    (∀ (m : NavMockIntent) (ops : List Op),
        protectionActiveFn (navRun m ops).2 =
          (m.protect && isActiveFn (navRun m ops).1.state) ∧
        canLeaveFn (navRun m ops).2 = !protectionActiveFn (navRun m ops).2) ∧
    (∀ (s : IntentState) (ops : List Op),
        (protectionActiveFn
            (navRun { state := s, protect := true } (ops ++ [Op.progress])).2 = true ∧
          canLeaveFn
            (navRun { state := s, protect := true } (ops ++ [Op.progress])).2 = false) ∧
        (protectionActiveFn
            (navRun { state := s, protect := true }
              (ops ++ [Op.progress, Op.complete])).2 = false ∧
          canLeaveFn
            (navRun { state := s, protect := true }
              (ops ++ [Op.progress, Op.complete])).2 = true)) := by
  constructor
  · intro m ops
    have h := navFold_inv ops (m, navSync m) rfl
    constructor
    · rw [navRun, h.1]
      show ((List.foldl navStep (m, navSync m) ops).1.protect &&
          isActiveFn (List.foldl navStep (m, navSync m) ops).1.state) =
        (m.protect && isActiveFn (List.foldl navStep (m, navSync m) ops).1.state)
      rw [h.2]
    · rfl
  · intro s ops
    have hp : (List.foldl navStep ({ state := s, protect := true },
        navSync { state := s, protect := true }) ops).1.protect = true :=
      (navFold_inv ops ({ state := s, protect := true },
        navSync { state := s, protect := true }) rfl).2
    simp only [navRun, List.foldl_append]
    refine ⟨⟨?_, ?_⟩, ?_, ?_⟩
    · show ((List.foldl navStep ({ state := s, protect := true },
          navSync { state := s, protect := true }) ops).1.protect &&
          isActiveFn IntentState.inProgress) = true
      rw [hp]
      rfl
    · show (!((List.foldl navStep ({ state := s, protect := true },
          navSync { state := s, protect := true }) ops).1.protect &&
          isActiveFn IntentState.inProgress)) = false
      rw [hp]
      rfl
    · show ((List.foldl navStep ({ state := s, protect := true },
          navSync { state := s, protect := true }) ops).1.protect &&
          isActiveFn IntentState.completed) = false
      rw [hp]
      rfl
    · show (!((List.foldl navStep ({ state := s, protect := true },
          navSync { state := s, protect := true }) ops).1.protect &&
          isActiveFn IntentState.completed)) = true
      rw [hp]
      rfl

/-- C9: in `useIntentState`, a notification equal to the tracked state
changes nothing; consequently the transitions history never holds two equal
consecutive entries, always ends in the current state, and the sequence
start, progress, progress, complete collapses to
[idle, started, in-progress, completed]. -/
theorem C9_equal_state_notification_noop :
    (∀ t : StateTracker, updateTracker t t.currentState = t) ∧
    (∀ (s0 : IntentState) (notes : List IntentState),
        List.Chain' (fun a b => a ≠ b) (trackerRun s0 notes).transitions ∧
        (trackerRun s0 notes).transitions.getLast? =
          some (trackerRun s0 notes).currentState) ∧
    (trackerRun IntentState.idle
        [IntentState.started, IntentState.inProgress, IntentState.inProgress,
          IntentState.completed]).transitions =
      [IntentState.idle, IntentState.started, IntentState.inProgress,
        IntentState.completed] := by
  refine ⟨?_, ?_, by decide⟩
  · intro t
    simp [updateTracker]
  · intro s0 notes
    exact trackerFold_inv notes (trackerInit s0) (List.chain'_singleton _) rfl

/-- C10: with an absent binding value, `updateElement` and the directive's
`mounted` hook return the element untouched (no attribute, class, style or
subscription change) and cannot fail. -/
theorem C10_null_binding_noop :
    ∀ (el : DirectiveEl) (arg : Option IntentModifier),
      updateElement el none arg = el ∧ vIntentMounted el none arg = el :=
  fun _ _ => ⟨rfl, rfl⟩

/-- Counterexample to C3 as stated: subscribers `[0, 1]`, where callback 0
unsubscribes itself as its first action.  During `start()`'s fan-out the
splice shifts callback 1 into the already-visited index 0, and the
`forEach` pass then finds no element at index 1, so the later-registered
observer 1 is never notified. -/
theorem C3_counterexample_skipped_observer :
    (applyOp behSelf0 Op.start
        { state := IntentState.idle, subscribers := [0, 1] }).2 =
      [(0, IntentState.started)] ∧
    ((1, IntentState.started) ∉
      (applyOp behSelf0 Op.start
        { state := IntentState.idle, subscribers := [0, 1] }).2) := by
  decide

/-- C3 amended: when an observer `cb` (registered after the observers `u`,
before the observers `d`, and not equal to any of `u`) unsubscribes itself
as its first action during a fan-out, the observers before it and the
observer itself are notified, the observer registered immediately after it
is skipped in that same fan-out, and every observer after that one is still
notified with the post-transition state; `cb` alone is removed from the
subscriber list. -/
theorem C3_amended_next_observer_skipped (beh : Nat → ObsBehavior)
    (st : IntentState) (op : Op) (u d : List Nat) (cb : Nat)
    (hcb : beh cb = ObsBehavior.selfUnsub)
    (hu : ∀ c ∈ u, beh c = ObsBehavior.record)
    (hd : ∀ c ∈ d, beh c = ObsBehavior.record)
    (hnotin : cb ∉ u) :
    (applyOp beh op { state := st, subscribers := u ++ cb :: d }).2 =
      u.map (fun c => (c, targetState op)) ++
        (cb, targetState op) :: (d.drop 1).map (fun c => (c, targetState op)) ∧
    (applyOp beh op { state := st, subscribers := u ++ cb :: d }).1.subscribers =
      u ++ d := by
  have hget : (u ++ cb :: d).get? u.length = some cb := by
    rw [List.get?_eq_getElem?, List.getElem?_append_right (Nat.le_refl u.length)]
    simp
  have hunsub : unsubAction (u ++ cb :: d) cb = u ++ d := by
    rw [unsubAction_eq_erase, List.erase_append_right (cb :: d) hnotin,
      List.erase_cons_head]
  have hdropud : (u ++ d).drop (u.length + 1) = d.drop 1 := by
    rw [← List.drop_drop 1 u.length (u ++ d), List.drop_left]
  have htake : (d.drop 1).take d.length = d.drop 1 :=
    List.take_of_length_le (by simp)
  have key : forEachFrom beh (targetState op) (u ++ cb :: d).length 0
      (u ++ cb :: d) [] =
      (u ++ d,
        u.map (fun c => (c, targetState op)) ++
          (cb, targetState op) ::
            (d.drop 1).map (fun c => (c, targetState op))) := by
    have hlen : (u ++ cb :: d).length = u.length + (1 + d.length) := by
      simp only [List.length_append, List.length_cons]
      omega
    rw [hlen, forEachFrom_add]
    rw [forEachFrom_record beh (targetState op) u.length 0 (u ++ cb :: d) []
      (by rw [List.drop_zero, List.take_left]; exact hu)]
    simp only [List.drop_zero, List.take_left, List.nil_append, Nat.zero_add]
    rw [Nat.add_comm 1 d.length]
    simp only [forEachFrom, hget]
    simp only [invokeCb, hcb]
    rw [hunsub]
    rw [forEachFrom_record beh (targetState op) d.length (u.length + 1) (u ++ d)
      (u.map (fun c => (c, targetState op)) ++ [(cb, targetState op)])
      (by
        rw [hdropud, htake]
        exact fun c hc => hd c (List.mem_of_mem_drop hc))]
    rw [hdropud, htake]
    simp
  constructor
  · show (forEachFrom beh (targetState op) (u ++ cb :: d).length 0
        (u ++ cb :: d) []).2 = _
    rw [key]
  · show (forEachFrom beh (targetState op) (u ++ cb :: d).length 0
        (u ++ cb :: d) []).1 = u ++ d
    rw [key]

/-- Witness for the amended C3: subscribers `[3, 0, 1, 2]` with observer 0
self-unsubscribing: 3, 0 and 2 are notified, 1 is skipped, and only 0 is
removed from the subscriber list. -/
theorem C3_amended_next_observer_skipped_witness :
    (applyOp behSelf0 Op.start
        { state := IntentState.idle, subscribers := [3, 0, 1, 2] }).2 =
      [(3, IntentState.started), (0, IntentState.started),
        (2, IntentState.started)] ∧
    (applyOp behSelf0 Op.start
        { state := IntentState.idle, subscribers := [3, 0, 1, 2] }).1.subscribers =
      [3, 1, 2] := by
  have h := C3_amended_next_observer_skipped behSelf0 IntentState.idle Op.start
    [3] [1, 2] 0 rfl (by decide) (by decide) (by decide)
  exact ⟨h.1, h.2⟩

/-- Counterexample to C4 as stated: with the same callback 5 subscribed
twice (subscriber list `[5, 5]`), the first invocation of the unsubscribe
handle leaves `[5]`, and invoking the very same handle a second time is not
a no-op: it splices out the other, still-attached registration. -/
theorem C4_counterexample_double_invoke :
    unsubAction [5, 5] 5 = [5] ∧
    unsubAction (unsubAction [5, 5] 5) 5 = [] ∧
    unsubAction (unsubAction [5, 5] 5) 5 ≠ unsubAction [5, 5] 5 := by
  decide

/-- C4 amended: provided the handle's callback holds at most one
registration in the subscriber list (in particular whenever all registered
callbacks are distinct), invoking the unsubscribe handle again after it has
run is a no-op; independently — with no restriction on the subscriber
list — an unsubscribe invocation never changes the registration count of
any other callback. -/
theorem C4_amended_unsub_idempotent_when_unique (subs : List Nat) (cb : Nat) :
    (subs.count cb ≤ 1 →
      unsubAction (unsubAction subs cb) cb = unsubAction subs cb) ∧
    (∀ c : Nat, c ≠ cb → (unsubAction subs cb).count c = subs.count c) := by
  constructor
  · intro h
    rw [unsubAction_eq_erase, unsubAction_eq_erase]
    apply List.erase_of_not_mem
    rw [← List.count_eq_zero]
    have h2 := List.count_erase_self cb subs
    omega
  · intro c hc
    rw [unsubAction_eq_erase]
    exact List.count_erase_of_ne hc subs

/-- Witness for the amended C4: idempotence at the distinct-callback list
`[1, 2]`, and preservation of callback 2's registration count at the
duplicate-registration list `[1, 1, 2]`. -/
theorem C4_amended_unsub_idempotent_when_unique_witness :
    unsubAction (unsubAction [1, 2] 1) 1 = unsubAction [1, 2] 1 ∧
    (unsubAction [1, 1, 2] 1).count 2 = [1, 1, 2].count 2 :=
  ⟨(C4_amended_unsub_idempotent_when_unique [1, 2] 1).1 (by decide),
   (C4_amended_unsub_idempotent_when_unique [1, 1, 2] 1).2 2 (by decide)⟩

/-- C5: subscribing the same callback `f` twice yields two registrations
(the list gains `f` twice), every transition then notifies `f` exactly
twice, invoking the unsubscribe handle detaches exactly one of the two
registrations while every other callback's registrations are untouched, and
on subsequent transitions the remaining registration still fires (exactly
once). -/
theorem C5_duplicate_callback_registrations (beh : Nat → ObsBehavior)
    (m : MockIntent) (f : Nat) (op op2 : Op)
    (hf : f ∉ m.subscribers)
    (hbeh : ∀ cb ∈ m.subscribers ++ [f, f], beh cb = ObsBehavior.record) :
    (subscribeCb (subscribeCb m f) f).subscribers = m.subscribers ++ [f, f] ∧
    (applyOp beh op (subscribeCb (subscribeCb m f) f)).2.count
        (f, targetState op) = 2 ∧
    (unsubAction (m.subscribers ++ [f, f]) f).count f = 1 ∧
    (∀ c : Nat, c ≠ f →
      (unsubAction (m.subscribers ++ [f, f]) f).count c =
        (m.subscribers ++ [f, f]).count c) ∧
    (applyOp beh op2
        { state := targetState op,
          subscribers := unsubAction (m.subscribers ++ [f, f]) f }).2.count
        (f, targetState op2) = 1 := by
  have hsubs : (subscribeCb (subscribeCb m f) f).subscribers =
      m.subscribers ++ [f, f] := by
    simp [subscribeCb]
  have hcount0 : m.subscribers.count f = 0 := List.count_eq_zero_of_not_mem hf
  have herase : unsubAction (m.subscribers ++ [f, f]) f =
      m.subscribers ++ [f] := by
    rw [unsubAction_eq_erase, List.erase_append_right [f, f] hf,
      List.erase_cons_head]
  refine ⟨hsubs, ?_, ?_, ?_, ?_⟩
  · have happ := applyOp_record beh op (subscribeCb (subscribeCb m f) f)
      (by rw [hsubs]; exact hbeh)
    have hlog : (applyOp beh op (subscribeCb (subscribeCb m f) f)).2 =
        (m.subscribers ++ [f, f]).map (fun c => (c, targetState op)) := by
      rw [happ, hsubs]
    rw [hlog, count_pair_map, List.count_append, hcount0]
    simp [List.count_cons]
  · rw [herase, List.count_append, hcount0]
    simp [List.count_cons]
  · intro c hc
    rw [unsubAction_eq_erase]
    exact List.count_erase_of_ne hc (m.subscribers ++ [f, f])
  · have hmem : ∀ c ∈ (unsubAction (m.subscribers ++ [f, f]) f),
        c ∈ m.subscribers ++ [f, f] := by
      intro c hc
      rw [herase] at hc
      rcases List.mem_append.mp hc with h1 | h1
      · exact List.mem_append.mpr (Or.inl h1)
      · simp only [List.mem_singleton] at h1
        subst h1
        simp
    have happ2 := applyOp_record beh op2
      { state := targetState op,
        subscribers := unsubAction (m.subscribers ++ [f, f]) f }
      (fun c hc => hbeh c (hmem c hc))
    have hlog2 : (applyOp beh op2
        { state := targetState op,
          subscribers := unsubAction (m.subscribers ++ [f, f]) f }).2 =
        (m.subscribers ++ [f]).map (fun c => (c, targetState op2)) := by
      rw [happ2, herase]
    rw [hlog2, count_pair_map, List.count_append, hcount0]
    simp

/-- Witness for C5: callback 3 subscribed twice next to callback 7. -/
theorem C5_duplicate_callback_registrations_witness :
    (applyOp recBeh Op.start
        (subscribeCb (subscribeCb
          { state := IntentState.idle, subscribers := [7] } 3) 3)).2.count
        (3, IntentState.started) = 2 ∧
    (unsubAction ([7] ++ [3, 3]) 3).count 3 = 1 ∧
    (unsubAction ([7] ++ [3, 3]) 3).count 7 = ([7] ++ [3, 3]).count 7 ∧
    (applyOp recBeh Op.progress
        { state := IntentState.started,
          subscribers := unsubAction ([7] ++ [3, 3]) 3 }).2.count
        (3, IntentState.inProgress) = 1 := by
  have h := C5_duplicate_callback_registrations recBeh
    { state := IntentState.idle, subscribers := [7] } 3 Op.start Op.progress
    (by decide) (fun cb _ => rfl)
  exact ⟨h.2.1, h.2.2.1, h.2.2.2.1 7 (by decide), h.2.2.2.2⟩
